import Mathlib

/-!
Verification development for the IMDBspider repository.

The repository's core is the chart-extraction pipeline in
`IMDBapp/control_panel.py` (filter normalisation, URL building, fetch
with one retry, parsing of anchor ranks and JSON-LD structured data,
merging into movie records, result assembly) together with the parallel
Scrapy spider `IMDBapp/proyecto_imdb/spiders/imdb.py`.

Conventions of the embedding:
* Python strings are Lean `String`s (scanned as `List Char`).
* Python `int` values are `Int` (ranks extracted from digit groups are
  `Nat`); machine overflow does not arise.
* `json.loads` is embedded as an executable recursive-descent JSON
  reader producing the inductive `Json` type; numbers keep their source
  lexeme since no claim depends on numeric interpretation.
* The two regular expressions of the source
  (`/title/(tt\d+)/\?ref_=chttp_t_(\d+)`, the `application/ld+json`
  script-block pattern, and `/title/(tt\d+)/`) are embedded as
  deterministic character scanners with `re.findall` / `re.search`
  semantics specialised to those patterns.
* The network (`requests.get`) is an explicit oracle
  `HttpRequest → HttpResponse`; `Response.raise_for_status` raises
  exactly for statuses in `[400, 600)`.
-/

namespace IMDB

/-- JSON values as produced by `json.loads`.  Object fields are kept in
parse order with duplicates; lookup takes the last binding, matching
Python `dict` construction.  Numbers keep their lexeme. -/
inductive Json where
  | null : Json
  | bool (b : Bool) : Json
  | num (lexeme : String) : Json
  | str (s : String) : Json
  | arr (elems : List Json) : Json
  | obj (fields : List (String × Json)) : Json

/-- Python `d.get(k)` on a parsed JSON object (`None` on non-objects is
never exercised by the source, which guards with `isinstance`). -/
def jget : Json → String → Option Json
  | .obj kvs, k => (kvs.reverse.find? (fun p => p.1 == k)).map (fun p => p.2)
  | _, _ => none

/-- Python `k in d` for a parsed JSON object. -/
def jhas : Json → String → Bool
  | .obj kvs, k => kvs.any (fun p => p.1 == k)
  | _, _ => false

/-- Python `isinstance(v, dict)`. -/
def Json.isObj : Json → Bool
  | .obj _ => true
  | _ => false

/-! JSON reading, embedding Python `json.loads`. -/

def jsonWs (c : Char) : Bool :=
  c == ' ' || c == '\t' || c == '\n' || c == '\r'

def skipWs : List Char → List Char
  | [] => []
  | c :: rest => if jsonWs c then skipWs rest else c :: rest

def hexVal (c : Char) : Option Nat :=
  if '0' ≤ c ∧ c ≤ '9' then some (c.toNat - 48)
  else if 'a' ≤ c ∧ c ≤ 'f' then some (c.toNat - 87)
  else if 'A' ≤ c ∧ c ≤ 'F' then some (c.toNat - 55)
  else none

/-- Strip an exact literal prefix, returning the remainder. -/
def stripLit : List Char → List Char → Option (List Char)
  | [], cs => some cs
  | _ :: _, [] => none
  | l :: ls, c :: cs => if c == l then stripLit ls cs else none

/-- Longest prefix of decimal digits, with the remainder. -/
def takeDigits : List Char → List Char × List Char
  | [] => ([], [])
  | c :: rest =>
    if c.isDigit then
      let (ds, r) := takeDigits rest
      (c :: ds, r)
    else ([], c :: rest)

/-- Value of a non-empty string of decimal digits (Python `int` on a
digits-only string). -/
def natOfDigits (cs : List Char) : Nat :=
  cs.foldl (fun acc c => 10 * acc + (c.toNat - 48)) 0

/-- Body of a JSON string after the opening quote; `acc` holds the
characters read so far, reversed. -/
def parseJString : List Char → List Char → Option (String × List Char)
  | acc, '"' :: rest => some (String.mk acc.reverse, rest)
  | acc, '\\' :: '"' :: rest => parseJString ('"' :: acc) rest
  | acc, '\\' :: '\\' :: rest => parseJString ('\\' :: acc) rest
  | acc, '\\' :: '/' :: rest => parseJString ('/' :: acc) rest
  | acc, '\\' :: 'b' :: rest => parseJString ('\x08' :: acc) rest
  | acc, '\\' :: 'f' :: rest => parseJString ('\x0c' :: acc) rest
  | acc, '\\' :: 'n' :: rest => parseJString ('\n' :: acc) rest
  | acc, '\\' :: 'r' :: rest => parseJString ('\r' :: acc) rest
  | acc, '\\' :: 't' :: rest => parseJString ('\t' :: acc) rest
  | acc, '\\' :: 'u' :: h1 :: h2 :: h3 :: h4 :: rest =>
    match hexVal h1, hexVal h2, hexVal h3, hexVal h4 with
    | some a, some b, some c, some d =>
      parseJString (Char.ofNat (((a * 16 + b) * 16 + c) * 16 + d) :: acc) rest
    | _, _, _, _ => none
  | _, '\\' :: _ => none
  | acc, c :: rest => if c.toNat < 32 then none else parseJString (c :: acc) rest
  | _, [] => none

/-- Integer part of a JSON number: `0` or a nonzero digit followed by
digits (leading zeros are not absorbed, as in Python's json). -/
def parseIntPart : List Char → Option (List Char × List Char)
  | [] => none
  | '0' :: rest => some (['0'], rest)
  | c :: rest =>
    if c.isDigit then
      let (ds, r) := takeDigits rest
      some (c :: ds, r)
    else none

/-- Optional fraction part `.digits`; yields `[]` when absent. -/
def parseFrac : List Char → List Char × List Char
  | '.' :: rest =>
    match takeDigits rest with
    | ([], _) => ([], '.' :: rest)
    | (ds, r) => ('.' :: ds, r)
  | cs => ([], cs)

/-- Optional exponent part `[eE][+-]?digits`; yields `[]` when absent. -/
def parseExp : List Char → List Char × List Char
  | c :: s :: rest =>
    if c == 'e' || c == 'E' then
      if s == '+' || s == '-' then
        match takeDigits rest with
        | ([], _) => ([], c :: s :: rest)
        | (ds, r) => (c :: s :: ds, r)
      else
        match takeDigits (s :: rest) with
        | ([], _) => ([], c :: s :: rest)
        | (ds, r) => (c :: ds, r)
    else ([], c :: s :: rest)
  | cs => ([], cs)

/-- A JSON number lexeme starting at the head of the input. -/
def parseNumber (cs : List Char) : Option (String × List Char) :=
  let (sign, cs1) :=
    match cs with
    | '-' :: rest => (['-'], rest)
    | _ => (([] : List Char), cs)
  match parseIntPart cs1 with
  | none => none
  | some (ip, cs2) =>
    let (fp, cs3) := parseFrac cs2
    let (ep, cs4) := parseExp cs3
    some (String.mk (sign ++ ip ++ fp ++ ep), cs4)

mutual

/-- One JSON value (fuel-indexed recursive descent). -/
def parseValue : Nat → List Char → Option (Json × List Char)
  | 0, _ => none
  | fuel + 1, cs =>
    match skipWs cs with
    | [] => none
    | '\x7b' :: rest =>
      match skipWs rest with
      | '\x7d' :: rest2 => some (.obj [], rest2)
      | _ =>
        match parseMembers fuel rest [] with
        | some (kvs, rest2) => some (.obj kvs, rest2)
        | none => none
    | '[' :: rest =>
      match skipWs rest with
      | ']' :: rest2 => some (.arr [], rest2)
      | _ =>
        match parseElems fuel rest [] with
        | some (xs, rest2) => some (.arr xs, rest2)
        | none => none
    | '"' :: rest =>
      match parseJString [] rest with
      | some (s, rest2) => some (.str s, rest2)
      | none => none
    | 't' :: rest => (stripLit "rue".data rest).map (fun r => (.bool true, r))
    | 'f' :: rest => (stripLit "alse".data rest).map (fun r => (.bool false, r))
    | 'n' :: rest => (stripLit "ull".data rest).map (fun r => (.null, r))
    | 'N' :: rest => (stripLit "aN".data rest).map (fun r => (.num "NaN", r))
    | 'I' :: rest => (stripLit "nfinity".data rest).map (fun r => (.num "Infinity", r))
    | '-' :: 'I' :: rest => (stripLit "nfinity".data rest).map (fun r => (.num "-Infinity", r))
    | cs' => (parseNumber cs').map (fun p => (.num (String.mk p.1.data), p.2))

/-- Members of a JSON object after the opening brace. -/
def parseMembers : Nat → List Char → List (String × Json) →
    Option (List (String × Json) × List Char)
  | 0, _, _ => none
  | fuel + 1, cs, acc =>
    match skipWs cs with
    | '"' :: rest =>
      match parseJString [] rest with
      | none => none
      | some (k, rest2) =>
        match skipWs rest2 with
        | ':' :: rest3 =>
          match parseValue fuel rest3 with
          | none => none
          | some (v, rest4) =>
            match skipWs rest4 with
            | ',' :: rest5 => parseMembers fuel rest5 (acc ++ [(k, v)])
            | '\x7d' :: rest5 => some (acc ++ [(k, v)], rest5)
            | _ => none
        | _ => none
    | _ => none

/-- Elements of a JSON array after the opening bracket. -/
def parseElems : Nat → List Char → List Json → Option (List Json × List Char)
  | 0, _, _ => none
  | fuel + 1, cs, acc =>
    match parseValue fuel cs with
    | none => none
    | some (v, rest) =>
      match skipWs rest with
      | ',' :: rest2 => parseElems fuel rest2 (acc ++ [v])
      | ']' :: rest2 => some (acc ++ [v], rest2)
      | _ => none

end

/-- Embedding of Python `json.loads`: one value, whitespace allowed
around it, nothing else ("Extra data" rejected). -/
def jsonLoads (s : String) : Option Json :=
  match parseValue (s.length + 1) s.data with
  | some (v, rest) => if (skipWs rest).isEmpty then some v else none
  | none => none

/-! Embedded regular-expression scanners. -/

/-- Strip a literal prefix up to ASCII case (`re.IGNORECASE`). -/
def stripLitCI : List Char → List Char → Option (List Char)
  | [], cs => some cs
  | _ :: _, [] => none
  | l :: ls, c :: cs => if c.toLower == l.toLower then stripLitCI ls cs else none

/-- Generic `re.findall` driver: at each position try the matcher; on a
match keep its value and resume after the match, otherwise advance one
character.  Both matchers used here consume at least one character, so
`fuel = length + 1` always suffices. -/
def scanAll {α : Type} (m : List Char → Option (α × List Char)) :
    Nat → List Char → List α
  | 0, _ => []
  | _, [] => []
  | fuel + 1, c :: rest =>
    match m (c :: rest) with
    | some (a, rest2) => a :: scanAll m fuel rest2
    | none => scanAll m fuel rest

/-- One match of `/title/(tt\d+)/\?ref_=chttp_t_(\d+)` anchored at the
head of the input: the two capture groups (as matched text) and the
remainder after the match. -/
def matchRankAt (cs : List Char) : Option ((String × String) × List Char) :=
  match stripLit "/title/tt".data cs with
  | none => none
  | some cs1 =>
    match takeDigits cs1 with
    | ([], _) => none
    | (ds, cs2) =>
      match stripLit "/?ref_=chttp_t_".data cs2 with
      | none => none
      | some cs3 =>
        match takeDigits cs3 with
        | ([], _) => none
        | (rs, cs4) =>
          some ((String.mk ('t' :: 't' :: ds), String.mk rs), cs4)

/-- `re.findall(r'/title/(tt\d+)/\?ref_=chttp_t_(\d+)', html_text)`:
the anchors' capture groups in document order. -/
def findAllRanks (html : String) : List (String × String) :=
  scanAll matchRankAt (html.length + 1) html.data

/-- Characters before the first `>`, and the remainder after it. -/
def takeUntilGT : List Char → Option (List Char × List Char)
  | [] => none
  | c :: rest =>
    if c == '>' then some ([], rest)
    else (takeUntilGT rest).map (fun p => (c :: p.1, p.2))

/-- Contiguous-substring test on character lists. -/
def infixOf (needle : List Char) : List Char → Bool
  | [] => needle.isEmpty
  | c :: rest => needle.isPrefixOf (c :: rest) || infixOf needle rest

/-- Lazy capture up to the first case-insensitive `</script>`: the
captured characters and the remainder after the closing tag. -/
def takeUntilCloseScript : List Char → Option (List Char × List Char)
  | [] => none
  | c :: rest =>
    match stripLitCI "</script>".data (c :: rest) with
    | some r => some ([], r)
    | none => (takeUntilCloseScript rest).map (fun p => (c :: p.1, p.2))

/-- One match of the script-block pattern
`<script[^>]*type="application/ld\+json"[^>]*>(.*?)</script>` (with
`re.DOTALL | re.IGNORECASE`) anchored at the head of the input: the
captured block body and the remainder after the closing tag.  The two
`[^>]*` runs force the type marker to sit between `<script` and the
first `>`. -/
def matchScriptAt (cs : List Char) : Option (String × List Char) :=
  match stripLitCI "<script".data cs with
  | none => none
  | some cs1 =>
    match takeUntilGT cs1 with
    | none => none
    | some (seg, cs2) =>
      if infixOf ("type=\"application/ld+json\"".data.map Char.toLower) (seg.map Char.toLower) then
        match takeUntilCloseScript cs2 with
        | none => none
        | some (cap, rest) => some (String.mk cap, rest)
      else none

/-- `re.findall(r'<script[^>]*type="application/ld\+json"[^>]*>(.*?)</script>', text, flags=re.DOTALL | re.IGNORECASE)`. -/
def findScripts (html : String) : List String :=
  scanAll matchScriptAt (html.length + 1) html.data

/-- One match of `/title/(tt\d+)/` anchored at the head of the input,
returning the capture group. -/
def matchTconstAt (cs : List Char) : Option String :=
  match stripLit "/title/tt".data cs with
  | none => none
  | some cs1 =>
    match takeDigits cs1 with
    | ([], _) => none
    | (ds, cs2) =>
      match cs2 with
      | '/' :: _ => some (String.mk ('t' :: 't' :: ds))
      | _ => none

/-- Body of `re.search(r'/title/(tt\d+)/', url)`: first match anywhere. -/
def searchTconstAux : List Char → Option String
  | [] => none
  | c :: rest =>
    match matchTconstAt (c :: rest) with
    | some t => some t
    | none => searchTconstAux rest

/-- `re.search(r'/title/(tt\d+)/', url)`, capture group 1. -/
def searchTconst (url : String) : Option String :=
  searchTconstAux url.data

/-- Body of `re.search(r'/title/(tt\d+)/\?ref_=chttp_t_(\d+)', href)`
used by the Scrapy spider: the first match's two groups. -/
def searchRankAux : List Char → Option (String × String)
  | [] => none
  | c :: rest =>
    match matchRankAt (c :: rest) with
    | some (p, _) => some p
    | none => searchRankAux rest

/-- The spider's per-href `re.search` for identifier and rank. -/
def spiderSearchRank (href : String) : Option (String × String) :=
  searchRankAux href.data

/-- Python `str.strip()` (ASCII whitespace). -/
def pyWsChar (c : Char) : Bool :=
  c == ' ' || c == '\t' || c == '\n' || c == '\r' || c == '\x0b' || c == '\x0c'

/-- Python `s.strip()`. -/
def pyStrip (s : String) : String :=
  String.mk (((s.data.dropWhile pyWsChar).reverse.dropWhile pyWsChar).reverse)

/-! The rank index (`rank_by_tconst`) of `parse_top250_from_html`. -/

/-- Association-list lookup standing for Python `dict.get`. -/
def lookupRank (kvs : List (String × Nat)) (k : String) : Option Nat :=
  (kvs.find? (fun p => p.1 == k)).map (fun p => p.2)

/-- The Flask parser's loop over `re.findall` matches:
`if tconst not in rank_by_tconst: rank_by_tconst[tconst] = int(rank)`. -/
def buildRankIndex : List (String × Nat) → List (String × String) → List (String × Nat)
  | acc, [] => acc
  | acc, (tconst, rank) :: rest =>
    if acc.any (fun p => p.1 == tconst) then buildRankIndex acc rest
    else buildRankIndex (acc ++ [(tconst, natOfDigits rank.data)]) rest

/-- `rank_by_tconst` as built at the start of `parse_top250_from_html`. -/
def rankByTconst (html : String) : List (String × Nat) :=
  buildRankIndex [] (findAllRanks html)

/-- Python `d[k] = v` on a dict association list: overwrite in place or
append.  Used by the Scrapy spider's rank loop. -/
def pyDictInsert : List (String × Nat) → String → Nat → List (String × Nat)
  | [], k, v => [(k, v)]
  | (k', v') :: rest, k, v =>
    if k' == k then (k', v) :: rest else (k', v') :: pyDictInsert rest k v

/-- The Scrapy spider's rank loop over the CSS-selected hrefs:
`rank_by_tconst[m.group(1)] = int(m.group(2))` for each href whose
`re.search` matches (no duplicate guard). -/
def spiderRankIndex (hrefs : List String) : List (String × Nat) :=
  hrefs.foldl
    (fun acc href =>
      match spiderSearchRank href with
      | none => acc
      | some (tconst, rank) => pyDictInsert acc tconst (natOfDigits rank.data))
    []

/-! Structured-data selection. -/

/-- The qualification test of the selection loop:
`isinstance(candidate, dict) and candidate.get("@type") == "ItemList"
and "itemListElement" in candidate`. -/
def isItemList (c : Json) : Bool :=
  c.isObj &&
    (match jget c "@type" with
     | some (.str s) => s == "ItemList"
     | _ => false) &&
    jhas c "itemListElement"

/-- The selection loop of `parse_top250_from_html` (and, identically, of
`ImdbSpider.parse`): strip each script block, skip blocks that fail
`json.loads`, take the first parsed dict qualifying as an ItemList. -/
def selectItemList : List String → Option Json
  | [] => none
  | raw :: rest =>
    match jsonLoads (pyStrip raw) with
    | none => selectItemList rest
    | some candidate =>
      if isItemList candidate then some candidate else selectItemList rest

/-! The merge loop. -/

/-- Canonical output record of the pipeline.  Every field except `rank`
carries the raw JSON value returned by `item.get(...)` (`none` standing
for Python `None`). -/
structure MovieRecord where
  rank : Nat
  url : Option Json
  name : Option Json
  alternateName : Option Json
  description : Option Json
  image : Option Json
  ratingValue : Option Json
  ratingCount : Option Json
  contentRating : Option Json
  genre : Option Json
  duration : Option Json

/-- Identifier derivation of one merge iteration:
`tconst_match = re.search(r"/title/(tt\d+)/", url) if isinstance(url, str) else None`
followed by `tconst = tconst_match.group(1) if tconst_match else None`. -/
def itemTconst (item : Json) : Option String :=
  match jget item "url" with
  | some (.str u) => searchTconst u
  | _ => none

/-- Rank resolution of one merge iteration:
`rank = rank_by_tconst.get(tconst) if tconst else None` followed by the
emitted `rank if rank is not None else i`. -/
def itemRank (rankIdx : List (String × Nat)) (i : Nat) (item : Json) : Nat :=
  (match itemTconst item with
   | some t => lookupRank rankIdx t
   | none => none).getD i

/-- The aggregate-rating extraction:
`item.get("aggregateRating") if isinstance(item.get("aggregateRating"), dict) else {}`. -/
def itemAggregate (item : Json) : Json :=
  match jget item "aggregateRating" with
  | some a => if a.isObj then a else Json.obj []
  | none => Json.obj []

/-- Body of one iteration of the merge loop at 1-based position `i`:
`none` when the element is skipped (element not a dict, or its `item`
not a dict), otherwise the emitted record. -/
def processElement (rankIdx : List (String × Nat)) (i : Nat) (element : Json) :
    Option MovieRecord :=
  if element.isObj then
    match jget element "item" with
    | some item =>
      if item.isObj then
        let aggregate := itemAggregate item
        some
          { rank := itemRank rankIdx i item
            url := jget item "url"
            name := jget item "name"
            alternateName := jget item "alternateName"
            description := jget item "description"
            image := jget item "image"
            ratingValue := jget aggregate "ratingValue"
            ratingCount := jget aggregate "ratingCount"
            contentRating := jget item "contentRating"
            genre := jget item "genre"
            duration := jget item "duration" }
      else none
    | none => none
  else none

/-- The merge loop `for i, element in enumerate(..., start=1)` with the
running 1-based counter. -/
def mergeItems (rankIdx : List (String × Nat)) : Nat → List Json → List MovieRecord
  | _, [] => []
  | i, element :: rest =>
    match processElement rankIdx i element with
    | none => mergeItems rankIdx (i + 1) rest
    | some r => r :: mergeItems rankIdx (i + 1) rest

/-- `parse_top250_from_html` of `control_panel.py`.  A non-list value
under `itemListElement` (which in Python would iterate a string's
characters or a dict's keys, every one skipped, or raise on
non-iterables) is modelled as the empty element list. -/
def parse_top250_from_html (html_text : String) : List MovieRecord :=
  let rankIdx := rankByTconst html_text
  match selectItemList (findScripts html_text) with
  | none => []
  | some data =>
    let elems :=
      match jget data "itemListElement" with
      | some (.arr xs) => xs
      | _ => []
    mergeItems rankIdx 1 elems

/-! Filters, URL building, fetch. -/

/-- Normalised user filters, as the `ChartFilters` dataclass. -/
structure ChartFilters where
  limit : Int
  sort : String
  direction : String

/-- Python `int(s)` on an optional string: optional surrounding ASCII
whitespace, optional sign, decimal digits with single underscores
between digits; anything else (including absence) fails. -/
def digitsWithUnderscores : List Char → Nat → Option Nat
  | [], acc => some acc
  | '_' :: c :: rest, acc =>
    if c.isDigit then digitsWithUnderscores rest (10 * acc + (c.toNat - 48)) else none
  | ['_'], _ => none
  | c :: rest, acc =>
    if c.isDigit then digitsWithUnderscores rest (10 * acc + (c.toNat - 48)) else none

/-- Python `int` on a whole (stripped) character sequence. -/
def pyIntCore : List Char → Option Int
  | '+' :: c :: rest =>
    if c.isDigit then (digitsWithUnderscores rest (c.toNat - 48)).map Int.ofNat else none
  | '-' :: c :: rest =>
    if c.isDigit then (digitsWithUnderscores rest (c.toNat - 48)).map (fun n => -(n : Int))
    else none
  | c :: rest =>
    if c.isDigit then (digitsWithUnderscores rest (c.toNat - 48)).map Int.ofNat else none
  | [] => none

/-- Python `int(value)` for a string argument; `none` models the
`ValueError` (`TypeError` for an absent value is handled by the caller). -/
def pyInt (s : String) : Option Int :=
  pyIntCore (pyStrip s).data

/-- `_normalize_limit`: `int(value)` with 50 on `TypeError`/`ValueError`,
then `max(1, min(250, n))`. -/
def normalize_limit (value : Option String) : Int :=
  match value with
  | none => 50
  | some s =>
    match pyInt s with
    | none => 50
    | some n => max 1 (min 250 n)

def DEFAULT_CHART_URL : String := "https://www.imdb.com/es-es/chart/top/?ref_=hm_nv_menu"

/-- The `SORT_PARAM_VALUES` table. -/
def SORT_PARAM_VALUES : List (String × String) :=
  [("USER_RATING", "user_rating"),
   ("RELEASE_DATE", "release_date"),
   ("USER_RATING_COUNT", "user_rating_count"),
   ("TITLE_REGIONAL", "title_regional"),
   ("POPULARITY", "popularity"),
   ("RUNTIME", "runtime")]

/-- `SORT_PARAM_VALUES.get(key)`. -/
def lookupSortParam (key : String) : Option String :=
  (SORT_PARAM_VALUES.find? (fun p => p.1 == key)).map (fun p => p.2)

/-- `build_chart_url` of `control_panel.py`; `if not sort_value` is the
Python falsiness test (absent or empty string). -/
def build_chart_url (filters : ChartFilters) : String :=
  if filters.sort == "RANKING" then DEFAULT_CHART_URL
  else
    match lookupSortParam filters.sort with
    | none => DEFAULT_CHART_URL
    | some sortValue =>
      if sortValue.isEmpty then DEFAULT_CHART_URL
      else DEFAULT_CHART_URL ++ "&sort=" ++ sortValue ++ "%2C" ++ filters.direction

/-- An outbound GET request; only the header the code varies is kept. -/
structure HttpRequest where
  url : String
  acceptLanguage : String

/-- A response as seen through `requests`: status code and decoded body. -/
structure HttpResponse where
  status : Nat
  text : String

def firstAcceptLanguage : String := "es-ES,es;q=0.9,en;q=0.8"

def retryAcceptLanguage : String := "en-US,en;q=0.9"

/-- The usability test of `fetch_chart`:
`resp.status_code == 202 or not resp.text or len(resp.text) < 10000`. -/
def looksIncomplete (resp : HttpResponse) : Bool :=
  resp.status == 202 || resp.text.isEmpty || resp.text.length < 10000

/-- The assembled payload of `fetch_chart`, with the diagnostics dict
flattened into fields. -/
structure FetchResult where
  url : String
  filters : ChartFilters
  http_status : Nat
  html_length : Nat
  ldjson_blocks : Nat
  count : Int
  movies : List MovieRecord

/-- Python list slicing `xs[:k]` for an integer bound. -/
def pySliceTo {α : Type} (xs : List α) (k : Int) : List α :=
  if 0 ≤ k then xs.take k.toNat else xs.take (xs.length - k.natAbs)

/-- The result assembly at the end of `fetch_chart` (everything after
`raise_for_status`). -/
def assembleResult (url : String) (filters : ChartFilters) (resp : HttpResponse) :
    FetchResult :=
  let movies := parse_top250_from_html resp.text
  { url := url
    filters := filters
    http_status := resp.status
    html_length := if resp.text.isEmpty then 0 else resp.text.length
    ldjson_blocks := (findScripts resp.text).length
    count := min filters.limit (movies.length : Int)
    movies := pySliceTo movies filters.limit }

/-- The first request of `fetch_chart` (headers as initialised). -/
def firstRequest (filters : ChartFilters) : HttpRequest :=
  { url := build_chart_url filters, acceptLanguage := firstAcceptLanguage }

/-- The retry request (same URL, `Accept-Language` switched). -/
def retryRequest (filters : ChartFilters) : HttpRequest :=
  { url := build_chart_url filters, acceptLanguage := retryAcceptLanguage }

/-- The requests `fetch_chart` issues against a network oracle `net`. -/
def fetchRequests (filters : ChartFilters) (net : HttpRequest → HttpResponse) :
    List HttpRequest :=
  if looksIncomplete (net (firstRequest filters)) then
    [firstRequest filters, retryRequest filters]
  else [firstRequest filters]

/-- The response `fetch_chart` proceeds with after the optional retry. -/
def fetchFinal (filters : ChartFilters) (net : HttpRequest → HttpResponse) :
    HttpResponse :=
  if looksIncomplete (net (firstRequest filters)) then net (retryRequest filters)
  else net (firstRequest filters)

/-- `resp.raise_for_status()` followed by the assembly:
`requests.Response.raise_for_status` raises `HTTPError` exactly for
status codes in `[400, 600)`. -/
def finishFetch (url : String) (filters : ChartFilters) (resp : HttpResponse) :
    Except Nat FetchResult :=
  if 400 ≤ resp.status ∧ resp.status < 600 then Except.error resp.status
  else Except.ok (assembleResult url filters resp)

/-- `fetch_chart` of `control_panel.py` over a pure network oracle:
the list of requests issued and the outcome (`Except.error` models the
`HTTPError` escaping the function). -/
def fetch_chart (filters : ChartFilters) (net : HttpRequest → HttpResponse) :
    List HttpRequest × Except Nat FetchResult :=
  (fetchRequests filters net,
   finishFetch (build_chart_url filters) filters (fetchFinal filters net))

/-! Helper lemmas about the rank indices. -/

theorem lookupRank_nil (t : String) : lookupRank [] t = none := rfl

theorem lookupRank_cons (p : String × Nat) (rest : List (String × Nat)) (t : String) :
    lookupRank (p :: rest) t = if p.1 == t then some p.2 else lookupRank rest t := by
  by_cases h : p.1 == t <;> simp [lookupRank, List.find?_cons, h]

theorem lookupRank_append (l₁ l₂ : List (String × Nat)) (t : String) :
    lookupRank (l₁ ++ l₂) t = (lookupRank l₁ t).or (lookupRank l₂ t) := by
  simp [lookupRank, List.find?_append, Option.map_or']

theorem lookupRank_isSome (kvs : List (String × Nat)) (t : String) :
    (lookupRank kvs t).isSome = kvs.any (fun p => p.1 == t) := by
  induction kvs with
  | nil => rfl
  | cons p rest ih => by_cases h : p.1 == t <;> simp [lookupRank_cons, h, ih]

theorem buildRankIndex_lookup (ms : List (String × String)) (acc : List (String × Nat))
    (t : String) :
    lookupRank (buildRankIndex acc ms) t =
      (lookupRank acc t).or
        ((ms.find? (fun p => p.1 == t)).map (fun p => natOfDigits p.2.data)) := by
  induction ms generalizing acc with
  | nil => simp [buildRankIndex]
  | cons m rest ih =>
    obtain ⟨mt, mr⟩ := m
    by_cases hmem : acc.any (fun p => p.1 == mt) = true
    · rw [show buildRankIndex acc ((mt, mr) :: rest) = buildRankIndex acc rest by
        simp [buildRankIndex, hmem], ih]
      by_cases hteq : (mt == t) = true
      · have ht : mt = t := by simpa using hteq
        have hsome : (lookupRank acc t).isSome := by
          rw [lookupRank_isSome, ← ht]; exact hmem
        obtain ⟨v, hv⟩ := Option.isSome_iff_exists.mp hsome
        rw [hv]; simp [List.find?_cons, hteq]
      · simp [List.find?_cons, hteq]
    · rw [show buildRankIndex acc ((mt, mr) :: rest) =
          buildRankIndex (acc ++ [(mt, natOfDigits mr.data)]) rest by
        simp [buildRankIndex, hmem], ih, lookupRank_append]
      by_cases hteq : (mt == t) = true
      · have ht : mt = t := by simpa using hteq
        have hnone : lookupRank acc t = none := by
          rw [← Option.not_isSome_iff_eq_none, lookupRank_isSome, ← ht]
          simpa using hmem
        have h2 : lookupRank [(mt, natOfDigits mr.data)] t = some (natOfDigits mr.data) := by
          simp [lookupRank_cons, hteq]
        rw [h2, hnone]; simp [List.find?_cons, hteq]
      · have h2 : lookupRank [(mt, natOfDigits mr.data)] t = none := by
          simp [lookupRank_cons, hteq, lookupRank_nil]
        rw [h2]; simp [List.find?_cons, hteq, Option.or_assoc]

theorem rankByTconst_lookup (html : String) (t : String) :
    lookupRank (rankByTconst html) t =
      ((findAllRanks html).find? (fun p => p.1 == t)).map
        (fun p => natOfDigits p.2.data) := by
  rw [rankByTconst, buildRankIndex_lookup]
  rfl

theorem pyDictInsert_lookup (kvs : List (String × Nat)) (k : String) (v : Nat) (t : String) :
    lookupRank (pyDictInsert kvs k v) t = if k == t then some v else lookupRank kvs t := by
  induction kvs with
  | nil =>
    by_cases h : (k == t) = true <;> simp [pyDictInsert, lookupRank_cons, lookupRank_nil, h]
  | cons p rest ih =>
    obtain ⟨k', v'⟩ := p
    by_cases h1 : (k' == k) = true
    · have hk : k' = k := by simpa using h1
      subst hk
      by_cases h2 : (k' == t) = true <;> simp [pyDictInsert, h1, lookupRank_cons, h2]
    · have hk : ¬ k' = k := by simpa using h1
      by_cases h2 : (k == t) = true <;> by_cases h3 : (k' == t) = true <;>
        simp_all [pyDictInsert, lookupRank_cons]

theorem foldInsert_lookup (ps : List (String × Nat)) (acc : List (String × Nat)) (t : String) :
    lookupRank (ps.foldl (fun a p => pyDictInsert a p.1 p.2) acc) t =
      ((ps.reverse.find? (fun p => p.1 == t)).map (fun p => p.2)).or
        (lookupRank acc t) := by
  induction ps generalizing acc with
  | nil => simp
  | cons p rest ih =>
    rw [List.foldl_cons, ih, pyDictInsert_lookup, List.reverse_cons, List.find?_append,
      Option.map_or', Option.or_assoc]
    by_cases h : (p.1 == t) = true <;> simp [List.find?_cons, h]

theorem spiderRankIndex_eq_fold (hrefs : List String) (acc : List (String × Nat)) :
    hrefs.foldl
        (fun a href =>
          match spiderSearchRank href with
          | none => a
          | some (tconst, rank) => pyDictInsert a tconst (natOfDigits rank.data))
        acc =
      (hrefs.filterMap (fun h => (spiderSearchRank h).map
          (fun p => (p.1, natOfDigits p.2.data)))).foldl
        (fun a p => pyDictInsert a p.1 p.2) acc := by
  induction hrefs generalizing acc with
  | nil => rfl
  | cons h rest ih =>
    cases hs : spiderSearchRank h with
    | none => simp [List.filterMap_cons, hs, ih]
    | some p => simp [List.filterMap_cons, hs, ih]

/-- C1 (amended): in the Flask parser (`parse_top250_from_html`) the
rank index maps each identifier to the rank of the *first* matching
anchor in document order; in the Scrapy spider (`ImdbSpider.parse`),
whose assignment carries no duplicate guard, the index maps each
identifier to the rank of the *last* matching anchor. -/
theorem C1_rank_first_anchor :
    (∀ (html : String) (t : String),
      lookupRank (rankByTconst html) t =
        ((findAllRanks html).find? (fun p => p.1 == t)).map
          (fun p => natOfDigits p.2.data)) ∧
    (∀ (hrefs : List String) (t : String),
      lookupRank (spiderRankIndex hrefs) t =
        ((hrefs.filterMap (fun h => (spiderSearchRank h).map
            (fun p => (p.1, natOfDigits p.2.data)))).reverse.find?
          (fun p => p.1 == t)).map (fun p => p.2)) := by
  refine ⟨rankByTconst_lookup, fun hrefs t => ?_⟩
  rw [spiderRankIndex, spiderRankIndex_eq_fold, foldInsert_lookup]
  simp [lookupRank_nil]

/-- C1 counterexample: two anchors with the same identifier and ranks 1
then 2; the Scrapy spider's rank index records the *second* rank, so the
claim's first-anchor-wins property fails for the spider. -/
theorem C1_spider_overwrites :
    lookupRank (spiderRankIndex
        ["/title/tt0000001/?ref_=chttp_t_1", "/title/tt0000001/?ref_=chttp_t_2"])
      "tt0000001" = some 2 ∧
    lookupRank (spiderRankIndex
        ["/title/tt0000001/?ref_=chttp_t_1", "/title/tt0000001/?ref_=chttp_t_2"])
      "tt0000001" ≠ some 1 := by
  constructor
  · rfl
  · decide

/-! C4: the merge loop against the claim's wording. -/

/-- Modelled from the claim's wording (spec section 4.6): the rank of a
valid item is the RankIndex entry for the derived identifier when that
identifier exists and is mapped, the 1-based position `i` otherwise. -/
def mergerSpecRank (rankIdx : List (String × Nat)) (i : Nat) (item : Json) : Nat :=
  match itemTconst item with
  | some t =>
    match lookupRank rankIdx t with
    | some v => v
    | none => i
  | none => i

/-- Modelled from the claim's wording: one element at 1-based position
`i` is skipped unless both it and its "item" field are objects, and
otherwise yields exactly one MovieRecord. -/
def mergerSpecElement (rankIdx : List (String × Nat)) (i : Nat) (element : Json) :
    Option MovieRecord :=
  match element, jget element "item" with
  | .obj _, some (.obj itemFields) =>
    let item : Json := .obj itemFields
    let aggregate :=
      match jget item "aggregateRating" with
      | some (.obj aggFields) => Json.obj aggFields
      | _ => Json.obj []
    some
      { rank := mergerSpecRank rankIdx i item
        url := jget item "url"
        name := jget item "name"
        alternateName := jget item "alternateName"
        description := jget item "description"
        image := jget item "image"
        ratingValue := jget aggregate "ratingValue"
        ratingCount := jget aggregate "ratingCount"
        contentRating := jget item "contentRating"
        genre := jget item "genre"
        duration := jget item "duration" }
  | _, _ => none

/-- Modelled from the claim's wording: iterate the list elements with
their 1-based positions, in order, keeping the emitted records. -/
def mergerSpec (rankIdx : List (String × Nat)) (elems : List Json) : List MovieRecord :=
  (elems.enumFrom 1).filterMap (fun p => mergerSpecElement rankIdx p.1 p.2)

theorem mergerSpecRank_eq (rankIdx : List (String × Nat)) (i : Nat) (item : Json) :
    mergerSpecRank rankIdx i item = itemRank rankIdx i item := by
  unfold mergerSpecRank itemRank
  cases itemTconst item with
  | none => rfl
  | some t => cases h : lookupRank rankIdx t <;> simp [h]

theorem specAggregate_eq (item : Json) :
    (match jget item "aggregateRating" with
     | some (.obj aggFields) => Json.obj aggFields
     | _ => Json.obj []) = itemAggregate item := by
  unfold itemAggregate
  cases h : jget item "aggregateRating" with
  | none => rfl
  | some a => cases a <;> simp [Json.isObj]

theorem mergerSpecElement_eq (rankIdx : List (String × Nat)) (i : Nat) (element : Json) :
    mergerSpecElement rankIdx i element = processElement rankIdx i element := by
  cases element with
  | obj fields =>
    cases hitem : jget (Json.obj fields) "item" with
    | none => simp [mergerSpecElement, processElement, hitem, Json.isObj]
    | some item =>
      cases item <;>
        simp [mergerSpecElement, processElement, hitem, Json.isObj,
          mergerSpecRank_eq, specAggregate_eq]
  | null => rfl
  | bool b => rfl
  | num s => rfl
  | str s => rfl
  | arr xs => rfl

theorem mergeItems_eq_enumFrom (rankIdx : List (String × Nat)) (elems : List Json)
    (i : Nat) :
    mergeItems rankIdx i elems =
      (elems.enumFrom i).filterMap (fun p => processElement rankIdx p.1 p.2) := by
  induction elems generalizing i with
  | nil => rfl
  | cons e rest ih =>
    rw [List.enumFrom_cons, List.filterMap_cons]
    cases h : processElement rankIdx i e <;> simp [mergeItems, h, ih]

/-- C4: the Merger iterates the selected list's elements in order with
1-based position `i`, skips any element that is not an object or whose
"item" field is not an object, and emits exactly one record per valid
item in list order, the rank being the RankIndex entry for the derived
identifier when mapped and `i` otherwise — the loop of
`parse_top250_from_html` coincides with that specification. -/
theorem C4_merger_follows_spec (rankIdx : List (String × Nat)) (elems : List Json) :
    mergeItems rankIdx 1 elems = mergerSpec rankIdx elems := by
  rw [mergeItems_eq_enumFrom, mergerSpec]
  have h : (fun p : Nat × Json => mergerSpecElement rankIdx p.1 p.2) =
      fun p : Nat × Json => processElement rankIdx p.1 p.2 :=
    funext fun p => mergerSpecElement_eq rankIdx p.1 p.2
  rw [h]

/-! C2: rank of every emitted record. -/

theorem itemRank_cases (rankIdx : List (String × Nat)) (i : Nat) (item : Json) :
    (∃ t, lookupRank rankIdx t = some (itemRank rankIdx i item)) ∨
      itemRank rankIdx i item = i := by
  unfold itemRank
  cases itemTconst item with
  | none => simp
  | some t =>
    cases h : lookupRank rankIdx t with
    | none => simp [h]
    | some v => exact Or.inl ⟨t, by simp [h]⟩

theorem processElement_rank (rankIdx : List (String × Nat)) (i : Nat) (e : Json)
    (r : MovieRecord) (h : processElement rankIdx i e = some r) :
    (∃ t, lookupRank rankIdx t = some r.rank) ∨ r.rank = i := by
  simp only [processElement] at h
  split at h
  · split at h
    · split at h
      · rw [Option.some.injEq] at h
        subst h
        exact itemRank_cases rankIdx i _
      · exact absurd h (by simp)
    · exact absurd h (by simp)
  · exact absurd h (by simp)

theorem mergeItems_rank (rankIdx : List (String × Nat)) (elems : List Json) (i : Nat)
    (r : MovieRecord) (hr : r ∈ mergeItems rankIdx i elems) :
    (∃ t, lookupRank rankIdx t = some r.rank) ∨ i ≤ r.rank := by
  induction elems generalizing i with
  | nil => cases hr
  | cons e rest ih =>
    simp only [mergeItems] at hr
    cases hp : processElement rankIdx i e with
    | none =>
      rw [hp] at hr
      rcases ih (i + 1) hr with h | h
      · exact Or.inl h
      · exact Or.inr (by omega)
    | some r' =>
      rw [hp] at hr
      rcases List.mem_cons.mp hr with h | h
      · rcases processElement_rank rankIdx i e r' hp with h2 | h2
        · exact Or.inl (by rw [h]; exact h2)
        · exact Or.inr (le_of_eq (by rw [h, h2]))
      · rcases ih (i + 1) h with h2 | h2
        · exact Or.inl h2
        · exact Or.inr (by omega)

/-- C2 (amended): every MovieRecord emitted by `parse_top250_from_html`
carries a concrete natural rank (never `None`); the rank is positive
whenever every anchor-extracted rank in the markup is positive.  The
unamended positivity fails only because the anchor pattern admits a
literal rank `0`, which the index then propagates. -/
theorem C2_rank_positive (html : String)
    (hpos : ∀ p ∈ findAllRanks html, 1 ≤ natOfDigits p.2.data) :
    ∀ r ∈ parse_top250_from_html html, 1 ≤ r.rank := by
  intro r hr
  simp only [parse_top250_from_html] at hr
  cases hsel : selectItemList (findScripts html) with
  | none => rw [hsel] at hr; cases hr
  | some data =>
    rw [hsel] at hr
    rcases mergeItems_rank (rankByTconst html) _ 1 r hr with ⟨t, ht⟩ | h
    · rw [rankByTconst_lookup] at ht
      rcases Option.map_eq_some'.mp ht with ⟨p, hfind, hval⟩
      have hp : p ∈ findAllRanks html := List.mem_of_find?_eq_some hfind
      rw [← hval]
      exact hpos p hp
    · exact h

/-- Markup whose only anchor carries the literal rank `0`; the JSON-LD
item for the same identifier then receives rank `0`. -/
def rankZeroHtml : String :=
  "<a href=\"/title/tt0000001/?ref_=chttp_t_0\"></a><script type=\"application/ld+json\">\x7b\"@type\":\"ItemList\",\"itemListElement\":[\x7b\"item\":\x7b\"url\":\"/title/tt0000001/\"\x7d\x7d]\x7d</script>"

set_option maxRecDepth 40000 in
/-- C2 counterexample: on `rankZeroHtml` the single emitted record has
rank 0, so the claimed positivity fails as stated. -/
theorem C2_rank_zero_counterexample :
    (parse_top250_from_html rankZeroHtml).map (fun r => r.rank) = [0] ∧
    ¬ (∀ r ∈ parse_top250_from_html rankZeroHtml, 1 ≤ r.rank) := by
  constructor
  · rfl
  · decide

/-- The same markup with the anchor rank 1 instead of 0. -/
def rankOneHtml : String :=
  "<a href=\"/title/tt0000001/?ref_=chttp_t_1\"></a><script type=\"application/ld+json\">\x7b\"@type\":\"ItemList\",\"itemListElement\":[\x7b\"item\":\x7b\"url\":\"/title/tt0000001/\"\x7d\x7d]\x7d</script>"

set_option maxRecDepth 40000 in
/-- Witness for C2: on `rankOneHtml` the hypothesis holds concretely and
every emitted rank is positive. -/
theorem C2_rank_positive_witness :
    (parse_top250_from_html rankOneHtml).all (fun r => decide (1 ≤ r.rank)) = true := by
  rw [List.all_eq_true]
  intro r hr
  exact decide_eq_true (C2_rank_positive rankOneHtml (by decide) r hr)

/-! C6: selection of the structured-data block. -/

/-- Modelled from the claim's wording: the contribution of one script
block to the selection — nothing for a block that fails to parse as
JSON or whose parsed value does not qualify as an ItemList object, the
parsed value otherwise. -/
def qualifyBlock (raw : String) : Option Json :=
  match jsonLoads (pyStrip raw) with
  | none => none
  | some c => if isItemList c then some c else none

/-- C6: the selection loop skips (without failing) every block that
does not parse as JSON, selects the first block in document order whose
parsed value is an ItemList object with an `itemListElement` key, scans
no further blocks after that match, and selects nothing when no block
qualifies — equivalently, it returns the head of the qualifying
contributions in document order. -/
theorem C6_select_first_qualifying (blocks : List String) :
    selectItemList blocks = (blocks.filterMap qualifyBlock).head? := by
  induction blocks with
  | nil => rfl
  | cons b rest ih =>
    simp only [selectItemList, List.filterMap_cons, qualifyBlock]
    cases h : jsonLoads (pyStrip b) with
    | none => simpa using ih
    | some c =>
      by_cases hq : isItemList c = true
      · simp [hq]
      · simp [hq, ih]

/-- A block that qualifies as an ItemList. -/
def goodBlock : String := "\x7b\"@type\":\"ItemList\",\"itemListElement\":[]\x7d"

/-- A block that fails to parse as JSON. -/
def badBlock : String := "not json"

/-- Witness for C6 at a concrete block list: a malformed block followed
by a qualifying one followed by another malformed one. -/
theorem C6_select_first_qualifying_witness :
    selectItemList [badBlock, goodBlock, badBlock] =
      ([badBlock, goodBlock, badBlock].filterMap qualifyBlock).head? :=
  C6_select_first_qualifying [badBlock, goodBlock, badBlock]

/-! C8: limit normalisation. -/

/-- C8: `_normalize_limit` always yields an integer in [1, 250]; a
value that parses as an integer is clamped into that interval, and
parse failure or absence yields exactly 50. -/
theorem C8_normalize_limit (value : Option String) :
    1 ≤ normalize_limit value ∧ normalize_limit value ≤ 250 ∧
    (∀ s n, value = some s → pyInt s = some n →
      normalize_limit value = max 1 (min 250 n)) ∧
    (value = none → normalize_limit value = 50) ∧
    (∀ s, value = some s → pyInt s = none → normalize_limit value = 50) := by
  cases value with
  | none =>
    refine ⟨by decide, by decide, ?_, fun _ => rfl, ?_⟩
    · intro s n hs
      cases hs
    · intro s hs
      cases hs
  | some s =>
    cases hp : pyInt s with
    | none =>
      refine ⟨?_, ?_, ?_, ?_, ?_⟩
      · simp [normalize_limit, hp]
      · simp [normalize_limit, hp]
      · intro s2 n hs hn
        rw [Option.some.injEq] at hs
        subst hs
        rw [hp] at hn
        cases hn
      · intro h
        cases h
      · intro s2 hs hn
        simp [normalize_limit, hp]
    | some n =>
      refine ⟨?_, ?_, ?_, ?_, ?_⟩
      · simp only [normalize_limit, hp]
        omega
      · simp only [normalize_limit, hp]
        omega
      · intro s2 m hs hm
        rw [Option.some.injEq] at hs
        subst hs
        rw [hp] at hm
        rw [Option.some.injEq] at hm
        subst hm
        simp [normalize_limit, hp]
      · intro h
        cases h
      · intro s2 hs hn
        rw [Option.some.injEq] at hs
        subst hs
        rw [hp] at hn
        cases hn

/-- Witness for C8: the raw value "7" parses and is clamped. -/
theorem C8_normalize_limit_witness :
    normalize_limit (some "7") = max 1 (min 250 7) :=
  (C8_normalize_limit (some "7")).2.2.1 "7" 7 rfl rfl

/-! C9: URL building. -/

theorem lookupSortParam_nonempty (s p : String) (h : lookupSortParam s = some p) :
    p.isEmpty = false := by
  rcases Option.map_eq_some'.mp h with ⟨q, hq, rfl⟩
  have hmem := List.mem_of_find?_eq_some hq
  fin_cases hmem <;> rfl

/-- C9: `build_chart_url` yields the fixed default chart URL for sort
RANKING (whatever the direction), appends `&sort=<param>%2C<direction>`
when the sort key has a mapped on-the-wire parameter, and falls back to
the default URL when the key has no mapped parameter. -/
theorem C9_build_chart_url (filters : ChartFilters) :
    (filters.sort = "RANKING" → build_chart_url filters = DEFAULT_CHART_URL) ∧
    (∀ p, filters.sort ≠ "RANKING" → lookupSortParam filters.sort = some p →
      build_chart_url filters =
        DEFAULT_CHART_URL ++ "&sort=" ++ p ++ "%2C" ++ filters.direction) ∧
    (filters.sort ≠ "RANKING" → lookupSortParam filters.sort = none →
      build_chart_url filters = DEFAULT_CHART_URL) := by
  refine ⟨fun h => ?_, fun p hne hp => ?_, fun hne hnone => ?_⟩
  · simp [build_chart_url, h]
  · have hemp := lookupSortParam_nonempty _ _ hp
    simp [build_chart_url, beq_iff_eq, hne, hp, hemp]
  · simp [build_chart_url, beq_iff_eq, hne, hnone]

/-- Witness for C9: the USER_RATING sort key with ascending direction. -/
theorem C9_build_chart_url_witness :
    build_chart_url { limit := 50, sort := "USER_RATING", direction := "asc" } =
      DEFAULT_CHART_URL ++ "&sort=" ++ "user_rating" ++ "%2C" ++ "asc" :=
  (C9_build_chart_url { limit := 50, sort := "USER_RATING", direction := "asc" }).2.1
    "user_rating" (by decide) rfl

/-! C3, C5, C7, C10: the fetch pipeline. -/

/-- Whether the modelled `fetch_chart` outcome is a returned result
rather than the propagated `HTTPError`. -/
def fetchSucceeded (outcome : Except Nat FetchResult) : Bool :=
  match outcome with
  | .ok _ => true
  | .error _ => false

theorem parse_eq_nil_of_no_itemlist (html : String)
    (h : selectItemList (findScripts html) = none) :
    parse_top250_from_html html = [] := by
  simp [parse_top250_from_html, h]

theorem looksIncomplete_iff (r : HttpResponse) :
    looksIncomplete r = true ↔
      (r.status = 202 ∨ r.text = "" ∨ r.text.length < 10000) := by
  simp [looksIncomplete, String.isEmpty_iff, or_assoc]

/-- C3: for a limit `L` in [1, 250] and a parsed record list of length
`N`, the assembled FetchResult has `count = min L N`, `count` equal to
the number of movies, and `movies` the first `L` parsed records. -/
theorem C3_count_invariant (filters : ChartFilters) (url : String) (resp : HttpResponse)
    (h1 : 1 ≤ filters.limit) (h2 : filters.limit ≤ 250) :
    (assembleResult url filters resp).count =
      min filters.limit ((parse_top250_from_html resp.text).length : Int) ∧
    ((assembleResult url filters resp).movies.length : Int) =
      (assembleResult url filters resp).count ∧
    (assembleResult url filters resp).movies =
      (parse_top250_from_html resp.text).take filters.limit.toNat := by
  refine ⟨rfl, ?_, ?_⟩
  · simp only [assembleResult, pySliceTo]
    rw [if_pos (show (0 : Int) ≤ filters.limit by omega)]
    rw [List.length_take]
    push_cast
    omega
  · simp only [assembleResult, pySliceTo]
    rw [if_pos (show (0 : Int) ≤ filters.limit by omega)]

/-- Concrete filters used by the closed instances below. -/
def defaultFilters : ChartFilters := { limit := 50, sort := "RANKING", direction := "desc" }

/-- A concrete response with a successful status and empty body. -/
def emptyResp : HttpResponse := { status := 200, text := "" }

/-- Witness for C3 at concrete filters and response. -/
theorem C3_count_invariant_witness :
    (assembleResult "" defaultFilters emptyResp).count =
      min defaultFilters.limit ((parse_top250_from_html emptyResp.text).length : Int) ∧
    ((assembleResult "" defaultFilters emptyResp).movies.length : Int) =
      (assembleResult "" defaultFilters emptyResp).count ∧
    (assembleResult "" defaultFilters emptyResp).movies =
      (parse_top250_from_html emptyResp.text).take defaultFilters.limit.toNat :=
  C3_count_invariant defaultFilters "" emptyResp (by decide) (by decide)

/-- C5 (amended): the Fetcher issues the second request — with
Accept-Language switched to "en-US,en;q=0.9" — iff the first response
has status 202, an empty body, or a body under 10,000 characters; it
makes at most two requests; and the outcome is the raised HTTPError iff
the final response's status lies in [400, 600).  (`raise_for_status`
does not raise on non-2xx statuses below 400, so "error iff not 2xx"
fails.) -/
theorem C5_fetch_retry (filters : ChartFilters) (net : HttpRequest → HttpResponse) :
    (fetch_chart filters net).1.length ≤ 2 ∧
    ((fetch_chart filters net).1 = [firstRequest filters, retryRequest filters] ↔
      ((net (firstRequest filters)).status = 202 ∨
       (net (firstRequest filters)).text = "" ∨
       (net (firstRequest filters)).text.length < 10000)) ∧
    (retryRequest filters).acceptLanguage = "en-US,en;q=0.9" ∧
    (fetchSucceeded (fetch_chart filters net).2 = false ↔
      (400 ≤ (fetchFinal filters net).status ∧
        (fetchFinal filters net).status < 600)) := by
  refine ⟨?_, ?_, rfl, ?_⟩
  · by_cases h : looksIncomplete (net (firstRequest filters)) = true <;>
      simp [fetch_chart, fetchRequests, h]
  · rw [← looksIncomplete_iff]
    by_cases h : looksIncomplete (net (firstRequest filters)) = true <;>
      simp [fetch_chart, fetchRequests, h]
  · by_cases h : 400 ≤ (fetchFinal filters net).status ∧
        (fetchFinal filters net).status < 600 <;>
      simp [fetch_chart, finishFetch, fetchSucceeded, h]

/-- A network oracle whose every response is a redirect status with an
empty body. -/
def redirectNet : HttpRequest → HttpResponse := fun _ => { status := 302, text := "" }

/-- C5 counterexample: the final response has status 302 — not a 2xx
success — yet `raise_for_status` raises nothing and `fetch_chart`
returns a result, so "error iff final status not 2xx" fails as stated. -/
theorem C5_non2xx_no_error :
    (fetchFinal defaultFilters redirectNet).status = 302 ∧
    ¬ (200 ≤ (fetchFinal defaultFilters redirectNet).status ∧
        (fetchFinal defaultFilters redirectNet).status < 300) ∧
    fetchSucceeded (fetch_chart defaultFilters redirectNet).2 = true := by
  refine ⟨rfl, by decide, rfl⟩

/-- Witness for C5 at a concrete oracle: at most two requests are made. -/
theorem C5_fetch_retry_witness :
    (fetch_chart defaultFilters redirectNet).1.length ≤ 2 :=
  (C5_fetch_retry defaultFilters redirectNet).1

/-- C7: when the (possibly retried) response contains zero qualifying
item-list blocks and its status does not trigger `raise_for_status`,
the pipeline raises no error and returns empty movies, count 0, and
diagnostics populated from the raw response. -/
theorem C7_no_itemlist (filters : ChartFilters) (net : HttpRequest → HttpResponse)
    (hlim : 1 ≤ filters.limit)
    (hsel : selectItemList (findScripts (fetchFinal filters net).text) = none)
    (hok : ¬ (400 ≤ (fetchFinal filters net).status ∧
        (fetchFinal filters net).status < 600)) :
    (fetch_chart filters net).2 =
      Except.ok (assembleResult (build_chart_url filters) filters
        (fetchFinal filters net)) ∧
    (assembleResult (build_chart_url filters) filters (fetchFinal filters net)).movies
      = [] ∧
    (assembleResult (build_chart_url filters) filters (fetchFinal filters net)).count
      = 0 ∧
    (assembleResult (build_chart_url filters) filters (fetchFinal filters net)).http_status
      = (fetchFinal filters net).status ∧
    (assembleResult (build_chart_url filters) filters (fetchFinal filters net)).html_length
      = (if (fetchFinal filters net).text.isEmpty then 0
         else (fetchFinal filters net).text.length) ∧
    (assembleResult (build_chart_url filters) filters (fetchFinal filters net)).ldjson_blocks
      = (findScripts (fetchFinal filters net).text).length := by
  have hparse := parse_eq_nil_of_no_itemlist _ hsel
  refine ⟨?_, ?_, ?_, rfl, rfl, rfl⟩
  · simp [fetch_chart, finishFetch, hok]
  · simp [assembleResult, hparse, pySliceTo]
  · simp only [assembleResult, hparse]
    simp only [List.length_nil]
    omega

/-- A network oracle answering with status 200 and an empty body. -/
def emptyNet : HttpRequest → HttpResponse := fun _ => { status := 200, text := "" }

/-- Witness for C7 at a concrete oracle whose page has no script block. -/
theorem C7_no_itemlist_witness :
    (fetch_chart defaultFilters emptyNet).2 =
      Except.ok (assembleResult (build_chart_url defaultFilters) defaultFilters
        (fetchFinal defaultFilters emptyNet)) ∧
    (assembleResult (build_chart_url defaultFilters) defaultFilters
        (fetchFinal defaultFilters emptyNet)).movies = [] ∧
    (assembleResult (build_chart_url defaultFilters) defaultFilters
        (fetchFinal defaultFilters emptyNet)).count = 0 ∧
    (assembleResult (build_chart_url defaultFilters) defaultFilters
        (fetchFinal defaultFilters emptyNet)).http_status =
      (fetchFinal defaultFilters emptyNet).status ∧
    (assembleResult (build_chart_url defaultFilters) defaultFilters
        (fetchFinal defaultFilters emptyNet)).html_length =
      (if (fetchFinal defaultFilters emptyNet).text.isEmpty then 0
       else (fetchFinal defaultFilters emptyNet).text.length) ∧
    (assembleResult (build_chart_url defaultFilters) defaultFilters
        (fetchFinal defaultFilters emptyNet)).ldjson_blocks =
      (findScripts (fetchFinal defaultFilters emptyNet).text).length :=
  C7_no_itemlist defaultFilters emptyNet (by decide) rfl (by decide)

/-- Markup with two anchors for the same identifier, ranks 5 then 7. -/
def dupAnchorHtml : String :=
  "/title/tt0000001/?ref_=chttp_t_5 and /title/tt0000001/?ref_=chttp_t_7"

set_option maxRecDepth 40000 in
/-- Witness for C1 on concrete markup: the Flask index realises the
first-anchor lookup there. -/
theorem C1_rank_first_anchor_witness :
    lookupRank (rankByTconst dupAnchorHtml) "tt0000001" =
      ((findAllRanks dupAnchorHtml).find? (fun p => p.1 == "tt0000001")).map
        (fun p => natOfDigits p.2.data) :=
  C1_rank_first_anchor.1 dupAnchorHtml "tt0000001"

/-- A concrete element list: one valid item and one skippable string. -/
def sampleElems : List Json :=
  [Json.obj [("item", Json.obj [("url", Json.str "/title/tt0000001/")])], Json.str "x"]

/-- Witness for C4 at a concrete index and element list. -/
theorem C4_merger_follows_spec_witness :
    mergeItems [("tt0000001", 3)] 1 sampleElems =
      mergerSpec [("tt0000001", 3)] sampleElems :=
  C4_merger_follows_spec [("tt0000001", 3)] sampleElems

/-- C10: the usability check is applied only to the first response:
when the first response looks incomplete and the retried response has a
2xx status, `fetch_chart` accepts the retry — even if it too looks like
a placeholder — and returns the normal result assembled from it. -/
theorem C10_retry_accepted (filters : ChartFilters) (net : HttpRequest → HttpResponse)
    (h1 : looksIncomplete (net (firstRequest filters)) = true)
    (_h2 : looksIncomplete (net (retryRequest filters)) = true)
    (h3 : 200 ≤ (net (retryRequest filters)).status)
    (h4 : (net (retryRequest filters)).status < 300) :
    (fetch_chart filters net).1 = [firstRequest filters, retryRequest filters] ∧
    (fetch_chart filters net).2 =
      Except.ok (assembleResult (build_chart_url filters) filters
        (net (retryRequest filters))) := by
  have hfin : fetchFinal filters net = net (retryRequest filters) := by
    simp [fetchFinal, h1]
  constructor
  · simp [fetch_chart, fetchRequests, h1]
  · simp only [fetch_chart, finishFetch, hfin]
    rw [if_neg (by omega)]

/-- A network oracle answering 202 with an empty body to everything. -/
def placeholderNet : HttpRequest → HttpResponse := fun _ => { status := 202, text := "" }

/-- Witness for C10: both responses look like placeholders (202, empty
body), yet the retry is accepted and a result is returned. -/
theorem C10_retry_accepted_witness :
    (fetch_chart defaultFilters placeholderNet).1 =
      [firstRequest defaultFilters, retryRequest defaultFilters] ∧
    (fetch_chart defaultFilters placeholderNet).2 =
      Except.ok (assembleResult (build_chart_url defaultFilters) defaultFilters
        (placeholderNet (retryRequest defaultFilters))) :=
  C10_retry_accepted defaultFilters placeholderNet rfl rfl (by decide) (by decide)

end IMDB
